import Mathlib

/-!
# Verification of the eos date/time core (`src/datetime.rs`)

This file shallowly embeds the `DateTime` logic of `src/datetime.rs` together
with the supporting value types it consumes (`Date`, `Time`, `Interval`, the
`TimeZone` capability).  The supporting types live in repository modules that
are not part of the provided sources, so they are modelled from the
specification (each such definition says so in its doc comment); everything in
`datetime.rs` itself is translated directly from that file.
-/

namespace Eos

/-- Modelled from the spec (§7, src lacks `error.rs`): the error kinds produced
by validated constructors and field setters. -/
inductive Error where
  | DateOutOfRange
  | TimeOutOfRange
deriving DecidableEq, Repr

/-! ## Time

Modelled from the spec (§3, §4.2; src lacks `time.rs`).  The spec reduces a
`Time` to its hour/minute/second fields (collapsed here into the
second-of-day count `secs`, a bijection that preserves the lexicographic
field order) plus the nanosecond-within-second field `nsec`, which is allowed
to reach `2_000_000_000` (leap-second representation, also documented at
`src/datetime.rs` lines 584-586), while the total nanosecond count of a stored
value stays below one day. -/

structure Time where
  secs : Int
  nsec : Int
deriving DecidableEq, Repr

def nanosPerDay : Int := 86400000000000

/-- Invariants of a stored `Time` value, as stated in spec §3. -/
def Time.Valid (t : Time) : Prop :=
  0 ≤ t.secs ∧ t.secs < 86400 ∧ 0 ≤ t.nsec ∧ t.nsec < 2000000000 ∧
    t.secs * 1000000000 + t.nsec < nanosPerDay

instance (t : Time) : Decidable t.Valid := by
  unfold Time.Valid
  exact inferInstance

/-- `Time::total_nanos`: total nanoseconds since midnight. -/
def Time.totalNanos (t : Time) : Int := t.secs * 1000000000 + t.nsec

/-- `Time::total_seconds`: whole seconds since midnight. -/
def Time.totalSeconds (t : Time) : Int := t.secs

/-- `Time::nanosecond`: the nanosecond-within-second field. -/
def Time.nanosecond (t : Time) : Int := t.nsec

/-- Modelled from the spec (§4.2): building a `Time` from a nanosecond-of-day
count (the wrapped remainder of `adjust_from_nanos`). -/
def Time.fromDayNanos (n : Int) : Time :=
  ⟨n / 1000000000, n % 1000000000⟩

/-- Modelled from the spec (§4.2): `Time::adjust_from_nanos` computes
`(days, Time)` from an arbitrary signed nanosecond count via floored div/mod
by nanoseconds-per-day. -/
def Time.adjustFromNanos (n : Int) : Int × Time :=
  (n / nanosPerDay, Time.fromDayNanos (n % nanosPerDay))

/-- Modelled from the spec (§4.2): `Time::add_with_duration` adds a fixed
physical duration (a nanosecond magnitude) and returns the signed day carry
together with the wrapped time. -/
def Time.addWithDuration (t : Time) (d : Nat) : Int × Time :=
  Time.adjustFromNanos (t.totalNanos + (d : Int))

/-- Modelled from the spec (§4.2): `Time::sub_with_duration`. -/
def Time.subWithDuration (t : Time) (d : Nat) : Int × Time :=
  Time.adjustFromNanos (t.totalNanos - (d : Int))

/-- Ordering of `Time` values: lexicographic on the (second-of-day,
nanosecond) fields, matching the field order of spec §3 and the
`total_seconds`/`nanosecond` decomposition used by `cmp_cross_timezone`. -/
def Time.cmp (t u : Time) : Ordering :=
  if t.secs < u.secs then .lt
  else if u.secs < t.secs then .gt
  else if t.nsec < u.nsec then .lt
  else if u.nsec < t.nsec then .gt
  else .eq

/-! ## Date

Modelled from the spec (§3, §4.1, glossary; src lacks `date.rs`).  A `Date` is
represented by its signed epoch-day count (days since 1970-01-01): spec §3
states every `Date` is reducible to that count, and §4.1 states the ordering
is equivalently lexicographic on (year, month, day) or on the epoch day.
`datetime.rs` consumes `Date` only through `epoch_days`, `add_days`,
`add_months`, `Date::new` and its `Ord` instance, all reconstructed below;
the epoch-day representation is written plainly as `Int`. -/

/-- `Date::epoch_days` (glossary: signed days relative to 1970-01-01). -/
def Date.epochDays (d : Int) : Int := d

/-- `Date::add_days`: total, always-valid day shift (spec §4.1). -/
def Date.addDays (d : Int) (n : Int) : Int := d + n

/-- Proleptic-Gregorian leap-year rule (spec §4.1, §8). -/
def isLeapYear (y : Int) : Prop :=
  y % 4 = 0 ∧ (y % 100 ≠ 0 ∨ y % 400 = 0)

instance (y : Int) : Decidable (isLeapYear y) := by
  unfold isLeapYear
  exact inferInstance

/-- Days in a month of the proleptic Gregorian calendar (spec §4.1). -/
def daysInMonth (y m : Int) : Int :=
  if m = 2 then (if isLeapYear y then 29 else 28)
  else if m = 4 ∨ m = 6 ∨ m = 9 ∨ m = 11 then 30
  else 31

/-- Days before the March-based era-year `y` inside a 400-year era. -/
def fdays (y : Int) : Int :=
  365 * y + y / 4 - y / 100 + y / 400

/-- Days before the March-based month index `mp` (0 = March) in an era-year. -/
def gdays (mp : Int) : Int := (153 * mp + 2) / 5

/-- The era-year containing day-of-era `doe`: start from the overestimate
`doe / 365` and correct downward (at most twice). -/
def yoeOf (doe : Int) : Int :=
  let c := doe / 365
  if doe < fdays (c - 1) then c - 2
  else if doe < fdays c then c - 1
  else c

/-- Epoch-day count to calendar (year, month, day): shift to the March-based
era origin, locate the era and era-year, then read the month and day off the
day-of-year. -/
def civilFromDays (z : Int) : Int × Int × Int :=
  let zd := z + 719468
  let era := zd / 146097
  let doe := zd - era * 146097
  let yoe := yoeOf doe
  let doy := doe - fdays yoe
  let mp := (5 * doy + 2) / 153
  let d := doy - gdays mp + 1
  let m := if mp < 10 then mp + 3 else mp - 9
  (yoe + era * 400 + (if 10 ≤ mp then 1 else 0), m, d)

/-- Calendar (year, month, day) to epoch-day count. -/
def daysFromCivil (y m d : Int) : Int :=
  let yy := y - (if m ≤ 2 then 1 else 0)
  let era := yy / 400
  let yoe := yy - era * 400
  let mp := if 2 < m then m - 3 else m + 9
  let doy := gdays mp + d - 1
  era * 146097 + (fdays yoe + doy) - 719468

/-- The validation condition of `Date::new` (spec §4.1): the date exists in
the proleptic Gregorian calendar. -/
def validYmd (y m d : Int) : Prop :=
  1 ≤ m ∧ m ≤ 12 ∧ 1 ≤ d ∧ d ≤ daysInMonth y m

instance (y m d : Int) : Decidable (validYmd y m d) := by
  unfold validYmd
  exact inferInstance

/-- Modelled from the spec (§4.1): `Date::new` validates the month and the
leap-aware day bound and otherwise fails with `DateOutOfRange`; on success it
produces the date (as its epoch-day count), never a clamped one. -/
def Date.new (y m d : Int) : Except Error Int :=
  if validYmd y m d then .ok (daysFromCivil y m d) else .error .DateOutOfRange

/-- Modelled from the spec (§4.1): `Date::add_months` shifts the month index
and clamps the day to the last valid day of the landing month. -/
def Date.addMonths (z n : Int) : Int :=
  let c := civilFromDays z
  let mm := c.1 * 12 + (c.2.1 - 1) + n
  let y := mm / 12
  let m := mm % 12 + 1
  daysFromCivil y m (min c.2.2 (daysInMonth y m))

/-! ## TimeZone capability

Modelled from the spec (§3, §4.4; src lacks `timezone.rs`).  Every built-in
implementation of the capability (`Utc`, `UtcOffset`, `Local`) resolves to a
fixed UTC offset in signed seconds, bounded strictly within a day; the
`offset` query ignores the queried local time for these fixed zones. -/

structure Zone where
  seconds : Int
deriving DecidableEq, Repr

/-- Offsets are bounded to less than 24 hours in magnitude (spec §3). -/
def Zone.Valid (z : Zone) : Prop := -86400 < z.seconds ∧ z.seconds < 86400

instance (z : Zone) : Decidable z.Valid := by
  unfold Zone.Valid
  exact inferInstance

/-- The `Utc` zone: fixed zero offset. -/
def Utc : Zone := ⟨0⟩

/-! ## DateTime

Everything below is translated from `src/datetime.rs`. -/

structure DateTime where
  date : Int
  time : Time
  timezone : Zone
deriving DecidableEq, Repr

def DateTime.Valid (dt : DateTime) : Prop := dt.time.Valid ∧ dt.timezone.Valid

instance (dt : DateTime) : Decidable dt.Valid := by
  unfold DateTime.Valid
  exact inferInstance

/-- The `TimeZone::offset` query (spec §4.4): for the built-in fixed zones it
returns the stored offset regardless of the queried local time. -/
def Zone.offset (z : Zone) (_dt : DateTime) : Int := z.seconds

/-- `DateTime::UNIX_EPOCH` (src lines 45-49). -/
def DateTime.UNIX_EPOCH : DateTime := ⟨0, ⟨0, 0⟩, Utc⟩

/-- `DateTime::shift` (src lines 80-85): add the offset's nanosecond value to
the time of day and fold the day carry into the date. -/
def DateTime.shift (dt : DateTime) (offset : Int) : DateTime :=
  let p := Time.adjustFromNanos (dt.time.totalNanos + offset * 1000000000)
  ⟨Date.addDays dt.date p.1, p.2, dt.timezone⟩

/-- `DateTime::with_timezone` (src lines 322-331). -/
def DateTime.withTimezone (dt : DateTime) (z : Zone) : DateTime :=
  ⟨dt.date, dt.time, z⟩

/-- `DateTime::into_utc` (src lines 298-303). -/
def DateTime.intoUtc (dt : DateTime) : DateTime :=
  let o := dt.timezone.offset dt
  (dt.withTimezone Utc).shift (-o)

/-- `TimeZone::datetime_at` (spec §4.4, src lacks `timezone.rs`): convert a
UTC instant into the zone's local representation by querying the offset and
shifting, then labelling with the zone. -/
def Zone.datetimeAt (z : Zone) (utc : DateTime) : DateTime :=
  (utc.shift z.seconds).withTimezone z

/-- `DateTime::in_timezone` (src lines 311-316). -/
def DateTime.inTimezone (dt : DateTime) (z : Zone) : DateTime :=
  z.datetimeAt dt.intoUtc

/-- Lexicographic comparison of the (Date, Time) pairs, as used by the fast
path of `cmp_cross_timezone` (src line 242) and by `cmp_without_tz`
(src lines 286-295). -/
def DateTime.lexCmp (a b : DateTime) : Ordering :=
  if a.date < b.date then .lt
  else if b.date < a.date then .gt
  else Time.cmp a.time b.time

/-- `DateTime::cmp_without_tz` (src lines 286-295). -/
def DateTime.cmpWithoutTz (a b : DateTime) : Ordering := a.lexCmp b

/-- `DateTime::cmp_cross_timezone` (src lines 234-281), including the
unreachable inner equal-offset branch of the source.  `divmod!` is floored
division (spec §4.2, §4.5; src lacks `utils.rs`). -/
def DateTime.cmpCrossTimezone (a b : DateTime) : Ordering :=
  let o1 := a.timezone.offset a
  let o2 := b.timezone.offset b
  if o1 = o2 then a.lexCmp b
  else
    let p :=
      let days := Date.epochDays a.date - Date.epochDays b.date
      if o1 = o2 then (days, true)
      else
        let deltaOffsets := o2 - o1
        let seconds := a.time.totalSeconds - b.time.totalSeconds + deltaOffsets
        let d := seconds / 86400
        let s := seconds % 86400
        (days + d, decide (s = 0 ∧ a.time.nanosecond = b.time.nanosecond))
    if p.1 < 0 then .lt
    else if p.1 = 0 ∧ p.2 = true then .eq
    else .gt

/-- The comparison the spec declares `cmp_cross_timezone` equivalent to
(spec §4.5): materialize both sides as UTC instants via `into_utc` and
compare the resulting (Date, Time) pairs lexicographically. -/
def DateTime.cmpViaUtc (a b : DateTime) : Ordering :=
  a.intoUtc.lexCmp b.intoUtc

/-- `DateTime::timestamp` (src lines 334-336).  Modelled from the spec
(§4.5; src lacks `interval.rs`): the interval between the Unix epoch and the
value, read as seconds, is the signed whole-second distance of the UTC form
of the value from the epoch. -/
def DateTime.timestamp (dt : DateTime) : Int :=
  let u := dt.intoUtc
  86400 * Date.epochDays u.date + u.time.totalSeconds

/-! ## Interval

Modelled from the spec (§3, §4.3; src lacks `interval.rs`): signed months,
signed days, and a sub-day duration held as an unsigned nanosecond magnitude
plus a subtraction flag. -/

structure Interval where
  months : Int
  days : Int
  sub : Bool
  nanos : Nat
deriving DecidableEq, Repr

/-- `Interval::total_months`. -/
def Interval.totalMonths (i : Interval) : Int := i.months

/-- `Interval::get_time_duration` (spec §4.3). -/
def Interval.getTimeDuration (i : Interval) : Bool × Nat := (i.sub, i.nanos)

/-- Modelled from the spec (§4.3): `Interval::from_seconds` builds a pure
sub-day duration interval from a signed second count. -/
def Interval.fromSeconds (s : Int) : Interval :=
  ⟨0, 0, decide (s < 0), s.natAbs * 1000000000⟩

/-- `Add<Interval> for DateTime` (src lines 724-746): months applied to the
date first, then the day carry of the sub-day duration folded together with
the interval's days into the date; the zone label is untouched. -/
def DateTime.addInterval (dt : DateTime) (i : Interval) : DateTime :=
  let p := i.getTimeDuration
  let q := if p.1 then dt.time.subWithDuration p.2 else dt.time.addWithDuration p.2
  ⟨Date.addDays (Date.addMonths dt.date i.totalMonths) (i.days + q.1), q.2, dt.timezone⟩

/-- `Sub<Interval> for DateTime` (src lines 748-774): the mirrored operation,
negating the month and day components and flipping the duration flag. -/
def DateTime.subInterval (dt : DateTime) (i : Interval) : DateTime :=
  let p := i.getTimeDuration
  let q := if p.1 then dt.time.addWithDuration p.2 else dt.time.subWithDuration p.2
  ⟨Date.addDays (Date.addMonths dt.date (-i.totalMonths)) (-i.days + q.1), q.2, dt.timezone⟩

/-- `DateTime::with_nanosecond` (src lines 645-648), via the spec contract of
`Time::with_nanosecond` (§4.2 and the bound documented at src lines 584-586). -/
def DateTime.withNanosecond (dt : DateTime) (n : Int) : Except Error DateTime :=
  if 0 ≤ n ∧ n < 2000000000 then .ok ⟨dt.date, ⟨dt.time.secs, n⟩, dt.timezone⟩
  else .error .TimeOutOfRange

/-- `DateTime::from_timestamp` (src lines 171-175). -/
def DateTime.fromTimestamp (secs : Int) (nanos : Int) (z : Zone) : Except Error DateTime :=
  (((DateTime.UNIX_EPOCH).addInterval (Interval.fromSeconds secs)).withNanosecond nanos).map
    (fun dt => dt.inTimezone z)

/-- `DateTime::new` (src lines 124-130): validated date, midnight, default
zone (UTC, the library default). -/
def DateTime.new (y m d : Int) : Except Error DateTime :=
  (Date.new y m d).map (fun dd => ⟨dd, ⟨0, 0⟩, Utc⟩)

/-! ## Arithmetic facts about the calendar model -/

theorem yoe_bracket (doe : Int) (h0 : 0 ≤ doe) (h1 : doe < 146097) :
    0 ≤ yoeOf doe ∧ yoeOf doe ≤ 399 ∧ fdays (yoeOf doe) ≤ doe ∧ doe < fdays (yoeOf doe + 1) := by
  simp only [yoeOf, fdays]
  split_ifs <;> (try simp only [sub_add_cancel]) <;> omega

theorem fdays_step (y : Int) (h0 : 0 ≤ y) (h1 : y ≤ 399) :
    fdays (y + 1) - fdays y = 365 + (if isLeapYear (y + 1) then 1 else 0) := by
  simp only [fdays, isLeapYear]
  split_ifs <;> omega

theorem mp_bracket (doy : Int) (h0 : 0 ≤ doy) (h1 : doy ≤ 365) :
    0 ≤ (5 * doy + 2) / 153 ∧ (5 * doy + 2) / 153 ≤ 11 ∧
    gdays ((5 * doy + 2) / 153) ≤ doy ∧ doy < gdays ((5 * doy + 2) / 153 + 1) := by
  simp only [gdays]
  omega

theorem roundtrip_core (z era doe yoe doy mp : Int)
    (h1 : z + 719468 = era * 146097 + doe)
    (hy0 : 0 ≤ yoe) (hy1 : yoe ≤ 399)
    (hdl : fdays yoe ≤ doe) (hdu : doe < fdays (yoe + 1))
    (hdoy : doy = doe - fdays yoe)
    (hmp0 : 0 ≤ mp) (hmp1 : mp ≤ 11)
    (hgl : gdays mp ≤ doy) (hgu : doy < gdays (mp + 1)) :
    daysFromCivil (yoe + era * 400 + (if 10 ≤ mp then 1 else 0))
      (if mp < 10 then mp + 3 else mp - 9)
      (doy - gdays mp + 1) = z := by
  simp only [daysFromCivil, fdays, gdays] at *
  split_ifs at * <;> omega

theorem valid_core (era doe yoe doy mp : Int)
    (hy0 : 0 ≤ yoe) (hy1 : yoe ≤ 399)
    (hdl : fdays yoe ≤ doe) (hdu : doe < fdays (yoe + 1))
    (hstep : fdays (yoe + 1) - fdays yoe = 365 + (if isLeapYear (yoe + 1) then 1 else 0))
    (hdoy : doy = doe - fdays yoe)
    (hmp0 : 0 ≤ mp) (hmp1 : mp ≤ 11)
    (hgl : gdays mp ≤ doy) (hgu : doy < gdays (mp + 1)) :
    1 ≤ (if mp < 10 then mp + 3 else mp - 9) ∧ (if mp < 10 then mp + 3 else mp - 9) ≤ 12 ∧
    1 ≤ doy - gdays mp + 1 ∧
    doy - gdays mp + 1 ≤
      daysInMonth (yoe + era * 400 + (if 10 ≤ mp then 1 else 0)) (if mp < 10 then mp + 3 else mp - 9) := by
  simp only [daysInMonth, gdays, isLeapYear] at *
  split_ifs at * <;> omega

/-- Converting an epoch-day count to calendar form and back is the identity. -/
theorem civil_days_roundtrip (z : Int) :
    daysFromCivil (civilFromDays z).1 (civilFromDays z).2.1 (civilFromDays z).2.2 = z := by
  obtain ⟨hy0, hy1, hdl, hdu⟩ :=
    yoe_bracket ((z + 719468) - (z + 719468) / 146097 * 146097) (by omega) (by omega)
  have hstep := fdays_step (yoeOf ((z + 719468) - (z + 719468) / 146097 * 146097)) hy0 hy1
  obtain ⟨hmp0, hmp1, hgl, hgu⟩ :=
    mp_bracket ((z + 719468) - (z + 719468) / 146097 * 146097 -
        fdays (yoeOf ((z + 719468) - (z + 719468) / 146097 * 146097)))
      (by omega) (by split_ifs at hstep <;> omega)
  simp only [civilFromDays]
  exact roundtrip_core z ((z + 719468) / 146097)
    ((z + 719468) - (z + 719468) / 146097 * 146097)
    (yoeOf ((z + 719468) - (z + 719468) / 146097 * 146097)) _ _
    (by omega) hy0 hy1 hdl hdu rfl hmp0 hmp1 hgl hgu

/-- The calendar form of an epoch-day count is a valid proleptic-Gregorian date. -/
theorem civil_valid (z : Int) :
    validYmd (civilFromDays z).1 (civilFromDays z).2.1 (civilFromDays z).2.2 := by
  obtain ⟨hy0, hy1, hdl, hdu⟩ :=
    yoe_bracket ((z + 719468) - (z + 719468) / 146097 * 146097) (by omega) (by omega)
  have hstep := fdays_step (yoeOf ((z + 719468) - (z + 719468) / 146097 * 146097)) hy0 hy1
  obtain ⟨hmp0, hmp1, hgl, hgu⟩ :=
    mp_bracket ((z + 719468) - (z + 719468) / 146097 * 146097 -
        fdays (yoeOf ((z + 719468) - (z + 719468) / 146097 * 146097)))
      (by omega) (by split_ifs at hstep <;> omega)
  simp only [civilFromDays, validYmd]
  exact valid_core ((z + 719468) / 146097)
    ((z + 719468) - (z + 719468) / 146097 * 146097)
    (yoeOf ((z + 719468) - (z + 719468) / 146097 * 146097)) _ _
    hy0 hy1 hdl hdu hstep rfl hmp0 hmp1 hgl hgu

/-- Shifting a date by zero months is the identity (no clamping happens because
the decomposed day is always valid for its month). -/
theorem addMonths_zero (z : Int) : Date.addMonths z 0 = z := by
  have hrt := civil_days_roundtrip z
  obtain ⟨h1, h2, h3, h4⟩ := civil_valid z
  simp only [Date.addMonths]
  have hy : ((civilFromDays z).1 * 12 + ((civilFromDays z).2.1 - 1) + 0) / 12 =
      (civilFromDays z).1 := by omega
  have hm : ((civilFromDays z).1 * 12 + ((civilFromDays z).2.1 - 1) + 0) % 12 + 1 =
      (civilFromDays z).2.1 := by omega
  rw [hy, hm, min_eq_left h4]
  exact hrt

/-- `PartialEq` for `DateTime` (src lines 690-698): equality across possibly
different zone types is `cmp_cross_timezone == Equal`. -/
def DateTime.eqOp (a b : DateTime) : Prop := a.cmpCrossTimezone b = Ordering.eq

/-- The `<` operator via `PartialOrd` (src lines 703-711). -/
def DateTime.ltOp (a b : DateTime) : Prop := a.cmpCrossTimezone b = Ordering.lt

/-- The `>` operator via `PartialOrd` (src lines 703-711). -/
def DateTime.gtOp (a b : DateTime) : Prop := a.cmpCrossTimezone b = Ordering.gt

instance (a b : DateTime) : Decidable (a.eqOp b) := by
  unfold DateTime.eqOp
  exact inferInstance

instance (a b : DateTime) : Decidable (a.ltOp b) := by
  unfold DateTime.ltOp
  exact inferInstance

instance (a b : DateTime) : Decidable (a.gtOp b) := by
  unfold DateTime.gtOp
  exact inferInstance

/-- Two datetimes denoting the same physical instant at second granularity,
with equal nanosecond fields, compare Equal under `cmp_cross_timezone`. -/
theorem cmp_eq_of_same_instant (a e : DateTime)
    (ha : a.Valid) (hze : e.timezone.Valid)
    (hs0 : 0 ≤ e.time.secs) (hs1 : e.time.secs < 86400)
    (hn : e.time.nsec = a.time.nsec)
    (hinst : 86400 * e.date + e.time.secs - e.timezone.seconds
           = 86400 * a.date + a.time.secs - a.timezone.seconds) :
    a.cmpCrossTimezone e = Ordering.eq := by
  obtain ⟨⟨hts0, hts1, htn0, htn1, htt⟩, hz1, hz2⟩ := ha
  obtain ⟨hz3, hz4⟩ := hze
  simp only [DateTime.cmpCrossTimezone, Zone.offset, DateTime.lexCmp, Time.cmp,
    Date.epochDays, Time.totalSeconds, Time.nanosecond]
  by_cases ho : a.timezone.seconds = e.timezone.seconds
  · rw [if_pos ho]
    split_ifs <;> first | rfl | (exfalso; omega)
  · rw [if_neg ho, if_neg ho]
    split_ifs with h1 h2
    · exfalso; omega
    · rfl
    · exfalso
      rw [decide_eq_true_eq] at h2
      omega

/-- The spelled-out existence condition of a proleptic-Gregorian date, written
independently of `daysInMonth`. -/
theorem validYmd_iff (y m d : Int) :
    validYmd y m d ↔
      (1 ≤ m ∧ m ≤ 12 ∧ 1 ≤ d ∧ d ≤ 31 ∧
        ((m = 4 ∨ m = 6 ∨ m = 9 ∨ m = 11) → d ≤ 30) ∧
        (m = 2 → d ≤ (if y % 4 = 0 ∧ (y % 100 ≠ 0 ∨ y % 400 = 0) then 29 else 28))) := by
  simp only [validYmd, daysInMonth, isLeapYear]
  split_ifs <;> omega

/-! ## The claims -/

/-- Claim C1.  The spec asserts `cmp_cross_timezone` returns the same
`Ordering` as converting both sides to UTC via `into_utc` and comparing the
(Date, Time) pairs lexicographically, nanoseconds included.  The code
violates this: for two valid datetimes at offsets +01:00 and +00:00 whose
instants agree to the second but whose nanoseconds are 5 and 7,
`cmp_cross_timezone` returns `Greater` while the UTC comparison returns
`Less` (nanoseconds enter the equality test of the fast-folded path but never
the ordering). -/
theorem c1_cmp_cross_timezone_diverges_from_utc :
    (⟨0, ⟨3600, 5⟩, ⟨3600⟩⟩ : DateTime).Valid ∧ (⟨0, ⟨0, 7⟩, ⟨0⟩⟩ : DateTime).Valid ∧
    DateTime.cmpCrossTimezone ⟨0, ⟨3600, 5⟩, ⟨3600⟩⟩ ⟨0, ⟨0, 7⟩, ⟨0⟩⟩ = Ordering.gt ∧
    DateTime.cmpViaUtc ⟨0, ⟨3600, 5⟩, ⟨3600⟩⟩ ⟨0, ⟨0, 7⟩, ⟨0⟩⟩ = Ordering.lt := by
  decide

/-- Claim C2.  With differing offsets, `cmp_cross_timezone` is Equal iff the
folded day difference, the floored remainder seconds, and the nanosecond
fields all vanish, is Less when the folded day difference is negative and
Greater when it is positive; with equal offsets it is the direct
lexicographic comparison of (Date, Time). -/
theorem c2_cmp_cross_timezone_algorithm (a b : DateTime) :
    (a.timezone.seconds ≠ b.timezone.seconds →
      ((a.cmpCrossTimezone b = Ordering.eq) ↔
        (Date.epochDays a.date - Date.epochDays b.date +
            (a.time.totalSeconds - b.time.totalSeconds +
              (b.timezone.seconds - a.timezone.seconds)) / 86400 = 0 ∧
          (a.time.totalSeconds - b.time.totalSeconds +
              (b.timezone.seconds - a.timezone.seconds)) % 86400 = 0 ∧
          a.time.nanosecond = b.time.nanosecond)) ∧
      (Date.epochDays a.date - Date.epochDays b.date +
          (a.time.totalSeconds - b.time.totalSeconds +
            (b.timezone.seconds - a.timezone.seconds)) / 86400 < 0 →
        a.cmpCrossTimezone b = Ordering.lt) ∧
      (0 < Date.epochDays a.date - Date.epochDays b.date +
          (a.time.totalSeconds - b.time.totalSeconds +
            (b.timezone.seconds - a.timezone.seconds)) / 86400 →
        a.cmpCrossTimezone b = Ordering.gt)) ∧
    (a.timezone.seconds = b.timezone.seconds →
      a.cmpCrossTimezone b = a.cmpWithoutTz b) := by
  constructor
  · intro hne
    simp only [DateTime.cmpCrossTimezone, Zone.offset, if_neg hne, Date.epochDays,
      Time.totalSeconds, Time.nanosecond]
    refine ⟨?_, ?_, ?_⟩
    · split_ifs with h1 h2
      · exact iff_of_false (by decide) (by omega)
      · obtain ⟨h21, h22⟩ := h2
        rw [decide_eq_true_eq] at h22
        exact iff_of_true (by trivial) ⟨h21, h22.1, h22.2⟩
      · rw [decide_eq_true_eq] at h2
        exact iff_of_false (by decide) (fun hc => h2 ⟨hc.1, hc.2.1, hc.2.2⟩)
    · intro hlt
      split_ifs with h1 h2 <;> try rfl
      all_goals exfalso
      all_goals try (obtain ⟨h21, h22⟩ := h2)
      all_goals omega
    · intro hgt
      split_ifs with h1 h2 <;> try rfl
      all_goals exfalso
      all_goals try (obtain ⟨h21, h22⟩ := h2)
      all_goals omega
  · intro heq
    simp only [DateTime.cmpCrossTimezone, DateTime.cmpWithoutTz, Zone.offset, if_pos heq]

theorem c2_cmp_cross_timezone_algorithm_witness :
    (⟨0, ⟨3600, 0⟩, ⟨0⟩⟩ : DateTime).timezone.seconds ≠
      (⟨1, ⟨0, 0⟩, ⟨3600⟩⟩ : DateTime).timezone.seconds ∧
    DateTime.cmpCrossTimezone ⟨0, ⟨3600, 0⟩, ⟨0⟩⟩ ⟨1, ⟨0, 0⟩, ⟨3600⟩⟩ = Ordering.lt :=
  ⟨by decide,
    ((c2_cmp_cross_timezone_algorithm ⟨0, ⟨3600, 0⟩, ⟨0⟩⟩ ⟨1, ⟨0, 0⟩, ⟨3600⟩⟩).1
      (by decide)).2.1 (by decide)⟩

/-- Claim C3.  The spec asserts `cmp_cross_timezone` is a total order, in
particular antisymmetric.  The code violates this: for two valid datetimes at
offsets +02:00 and +01:00 whose instants agree to the second but whose
nanoseconds are 1 and 2, the comparison returns `Greater` in both argument
orders. -/
theorem c3_cmp_cross_timezone_not_antisymmetric :
    (⟨100, ⟨7200, 1⟩, ⟨7200⟩⟩ : DateTime).Valid ∧ (⟨100, ⟨3600, 2⟩, ⟨3600⟩⟩ : DateTime).Valid ∧
    DateTime.cmpCrossTimezone ⟨100, ⟨7200, 1⟩, ⟨7200⟩⟩ ⟨100, ⟨3600, 2⟩, ⟨3600⟩⟩ = Ordering.gt ∧
    DateTime.cmpCrossTimezone ⟨100, ⟨3600, 2⟩, ⟨3600⟩⟩ ⟨100, ⟨7200, 1⟩, ⟨7200⟩⟩ = Ordering.gt := by
  decide

/-- Claim C4.  A `DateTime` at +03:00 with wall clock 2000-01-02 03:04:05
equals (via the `cmp_cross_timezone`-backed equality) a UTC `DateTime` with
wall clock 2000-01-02 00:04:05 in both argument orders, and the pair obtained
by setting the UTC wall clock hour to 3 is unequal and ordered consistently
by the operators in both directions. -/
theorem c4_mixed_timezone_comparisons :
    DateTime.eqOp ⟨daysFromCivil 2000 1 2, ⟨11045, 0⟩, ⟨10800⟩⟩
      ⟨daysFromCivil 2000 1 2, ⟨245, 0⟩, ⟨0⟩⟩ ∧
    DateTime.eqOp ⟨daysFromCivil 2000 1 2, ⟨245, 0⟩, ⟨0⟩⟩
      ⟨daysFromCivil 2000 1 2, ⟨11045, 0⟩, ⟨10800⟩⟩ ∧
    ¬ DateTime.eqOp ⟨daysFromCivil 2000 1 2, ⟨11045, 0⟩, ⟨10800⟩⟩
      ⟨daysFromCivil 2000 1 2, ⟨11045, 0⟩, ⟨0⟩⟩ ∧
    DateTime.ltOp ⟨daysFromCivil 2000 1 2, ⟨11045, 0⟩, ⟨10800⟩⟩
      ⟨daysFromCivil 2000 1 2, ⟨11045, 0⟩, ⟨0⟩⟩ ∧
    DateTime.gtOp ⟨daysFromCivil 2000 1 2, ⟨11045, 0⟩, ⟨0⟩⟩
      ⟨daysFromCivil 2000 1 2, ⟨11045, 0⟩, ⟨10800⟩⟩ := by
  decide

/-- Claim C5, counterexample.  For a stored leap-second time representation
(nanosecond field 1.2e9, allowed by the `0..2_000_000_000` bound), converting
to the same zone through `in_timezone` normalizes the fields, and
`cmp_cross_timezone` between the original and the converted value is not
Equal. -/
theorem c5_leap_second_not_equal :
    (⟨0, ⟨0, 1200000000⟩, ⟨0⟩⟩ : DateTime).Valid ∧
    DateTime.cmpCrossTimezone ⟨0, ⟨0, 1200000000⟩, ⟨0⟩⟩
      ((⟨0, ⟨0, 1200000000⟩, ⟨0⟩⟩ : DateTime).inTimezone Utc) ≠ Ordering.eq := by
  decide

/-- Claim C5, amended: for every valid `DateTime` whose nanosecond field is
below 1_000_000_000 (no leap-second representation) and every valid target
zone, `in_timezone` equals `datetime_at` applied to `into_utc`, and the
result denotes the same instant: `cmp_cross_timezone` returns Equal. -/
theorem c5_in_timezone_same_instant (dt : DateTime) (z : Zone)
    (hv : dt.Valid) (hz : z.Valid) (hns : dt.time.nsec < 1000000000) :
    dt.inTimezone z = z.datetimeAt dt.intoUtc ∧
    dt.cmpCrossTimezone (dt.inTimezone z) = Ordering.eq := by
  refine ⟨rfl, cmp_eq_of_same_instant dt (dt.inTimezone z) hv ?_ ?_ ?_ ?_ ?_⟩
  · simpa only [DateTime.inTimezone, Zone.datetimeAt, DateTime.withTimezone] using hz
  · obtain ⟨⟨hts0, hts1, htn0, htn1, htt⟩, hz1, hz2⟩ := hv
    simp only [DateTime.inTimezone, Zone.datetimeAt, DateTime.intoUtc, DateTime.withTimezone,
      DateTime.shift, Time.adjustFromNanos, Time.fromDayNanos, Time.totalNanos, Zone.offset,
      Date.addDays, nanosPerDay]
    omega
  · obtain ⟨⟨hts0, hts1, htn0, htn1, htt⟩, hz1, hz2⟩ := hv
    simp only [DateTime.inTimezone, Zone.datetimeAt, DateTime.intoUtc, DateTime.withTimezone,
      DateTime.shift, Time.adjustFromNanos, Time.fromDayNanos, Time.totalNanos, Zone.offset,
      Date.addDays, nanosPerDay]
    omega
  · obtain ⟨⟨hts0, hts1, htn0, htn1, htt⟩, hz1, hz2⟩ := hv
    simp only [DateTime.inTimezone, Zone.datetimeAt, DateTime.intoUtc, DateTime.withTimezone,
      DateTime.shift, Time.adjustFromNanos, Time.fromDayNanos, Time.totalNanos, Zone.offset,
      Date.addDays, nanosPerDay]
    omega
  · obtain ⟨⟨hts0, hts1, htn0, htn1, htt⟩, hz1, hz2⟩ := hv
    obtain ⟨hz3, hz4⟩ := hz
    simp only [DateTime.inTimezone, Zone.datetimeAt, DateTime.intoUtc, DateTime.withTimezone,
      DateTime.shift, Time.adjustFromNanos, Time.fromDayNanos, Time.totalNanos, Zone.offset,
      Date.addDays, nanosPerDay]
    omega

theorem c5_in_timezone_same_instant_witness :
    (⟨10958, ⟨11045, 123⟩, ⟨3600⟩⟩ : DateTime).Valid ∧ Zone.Valid ⟨-7200⟩ ∧
    (⟨10958, ⟨11045, 123⟩, ⟨3600⟩⟩ : DateTime).time.nsec < 1000000000 ∧
    DateTime.cmpCrossTimezone ⟨10958, ⟨11045, 123⟩, ⟨3600⟩⟩
      ((⟨10958, ⟨11045, 123⟩, ⟨3600⟩⟩ : DateTime).inTimezone ⟨-7200⟩) = Ordering.eq :=
  ⟨by decide, by decide, by decide,
    (c5_in_timezone_same_instant ⟨10958, ⟨11045, 123⟩, ⟨3600⟩⟩ ⟨-7200⟩
      (by decide) (by decide) (by decide)).2⟩

/-- Claim C6.  `with_timezone` changes only the timezone field: the date and
time components of the result are identical to the original ones. -/
theorem c6_with_timezone_preserves_fields (dt : DateTime) (z : Zone) :
    (dt.withTimezone z).date = dt.date ∧ (dt.withTimezone z).time = dt.time :=
  ⟨rfl, rfl⟩

/-- Claim C7.  `DateTime::new` succeeds exactly when the requested date
exists in the proleptic Gregorian calendar (month 1..=12, day bounded by the
leap-aware month length), fails with `DateOutOfRange` otherwise, and in
particular rejects 2013-02-29 and 1900-02-29 while accepting 2012-02-29 and
2000-02-29. -/
theorem c7_new_validates_date :
    (∀ y m d : Int, (∃ dt, DateTime.new y m d = Except.ok dt) ↔
      (1 ≤ m ∧ m ≤ 12 ∧ 1 ≤ d ∧ d ≤ 31 ∧
        ((m = 4 ∨ m = 6 ∨ m = 9 ∨ m = 11) → d ≤ 30) ∧
        (m = 2 → d ≤ (if y % 4 = 0 ∧ (y % 100 ≠ 0 ∨ y % 400 = 0) then 29 else 28)))) ∧
    (∀ y m d : Int, ¬ validYmd y m d → DateTime.new y m d = Except.error Error.DateOutOfRange) ∧
    DateTime.new 2013 2 29 = Except.error Error.DateOutOfRange ∧
    DateTime.new 1900 2 29 = Except.error Error.DateOutOfRange ∧
    (∃ dt, DateTime.new 2012 2 29 = Except.ok dt) ∧
    (∃ dt, DateTime.new 2000 2 29 = Except.ok dt) := by
  refine ⟨?_, ?_, rfl, rfl, ⟨⟨daysFromCivil 2012 2 29, ⟨0, 0⟩, Utc⟩, rfl⟩,
    ⟨⟨daysFromCivil 2000 2 29, ⟨0, 0⟩, Utc⟩, rfl⟩⟩
  · intro y m d
    rw [← validYmd_iff]
    constructor
    · rintro ⟨dt, hdt⟩
      by_cases hvv : validYmd y m d
      · exact hvv
      · rw [DateTime.new, Date.new, if_neg hvv] at hdt
        exact Except.noConfusion hdt
    · intro hvv
      rw [DateTime.new, Date.new, if_pos hvv]
      exact ⟨_, rfl⟩
  · intro y m d hvv
    rw [DateTime.new, Date.new, if_neg hvv]
    rfl

theorem c7_new_validates_date_witness :
    DateTime.new 2013 3 32 = Except.error Error.DateOutOfRange :=
  c7_new_validates_date.2.1 2013 3 32 (by decide)

/-- Claim C8, counterexample.  For a stored leap-second time representation
(nanosecond field 1.5e9) and the zero interval (months = 0), adding and then
subtracting the interval normalizes the time fields, so the round trip is not
the componentwise identity. -/
theorem c8_leap_second_roundtrip_fails :
    (⟨0, ⟨0, 1500000000⟩, ⟨0⟩⟩ : DateTime).Valid ∧
    (⟨0, 0, false, 0⟩ : Interval).months = 0 ∧
    ((⟨0, ⟨0, 1500000000⟩, ⟨0⟩⟩ : DateTime).addInterval ⟨0, 0, false, 0⟩).subInterval
        ⟨0, 0, false, 0⟩ ≠ (⟨0, ⟨0, 1500000000⟩, ⟨0⟩⟩ : DateTime) := by
  decide

/-- Claim C8, amended: for every valid `DateTime` whose nanosecond field is
below 1_000_000_000 (no leap-second representation) and every `Interval` with
a zero month component, adding and then subtracting the interval is the
componentwise identity, and both operations preserve the zone label. -/
theorem c8_add_sub_interval_roundtrip (dt : DateTime) (i : Interval)
    (hv : dt.Valid) (hns : dt.time.nsec < 1000000000) (hm : i.months = 0) :
    (dt.addInterval i).subInterval i = dt ∧
    (dt.addInterval i).timezone = dt.timezone ∧
    (dt.subInterval i).timezone = dt.timezone := by
  obtain ⟨dd, ⟨ts, tn⟩, tz⟩ := dt
  obtain ⟨im, idy, isub, inan⟩ := i
  obtain ⟨⟨hts0, hts1, htn0, htn1, htt⟩, hz1, hz2⟩ := hv
  simp only [nanosPerDay] at *
  subst hm
  refine ⟨?_, rfl, rfl⟩
  cases isub <;>
    simp [DateTime.addInterval, DateTime.subInterval, Interval.getTimeDuration,
      Interval.totalMonths, Time.addWithDuration, Time.subWithDuration, Time.adjustFromNanos,
      Time.fromDayNanos, Time.totalNanos, Date.addDays, nanosPerDay, neg_zero, addMonths_zero,
      DateTime.mk.injEq, Time.mk.injEq, -Int.natCast_natAbs] <;>
    omega

theorem c8_add_sub_interval_roundtrip_witness :
    (⟨10958, ⟨11045, 123⟩, ⟨3600⟩⟩ : DateTime).Valid ∧
    (⟨10958, ⟨11045, 123⟩, ⟨3600⟩⟩ : DateTime).time.nsec < 1000000000 ∧
    (⟨0, 5, true, 7230000000123⟩ : Interval).months = 0 ∧
    ((⟨10958, ⟨11045, 123⟩, ⟨3600⟩⟩ : DateTime).addInterval
        ⟨0, 5, true, 7230000000123⟩).subInterval ⟨0, 5, true, 7230000000123⟩ =
      (⟨10958, ⟨11045, 123⟩, ⟨3600⟩⟩ : DateTime) :=
  ⟨by decide, by decide, by decide,
    (c8_add_sub_interval_roundtrip ⟨10958, ⟨11045, 123⟩, ⟨3600⟩⟩ ⟨0, 5, true, 7230000000123⟩
      (by decide) (by decide) (by decide)).1⟩

/-- Claim C9.  `timestamp` returns the POSIX second count: 0 for the Unix
epoch, 3723 for 1970-01-01 01:02:03 UTC, 1641155925 for 2022-01-02 20:38:45
UTC, and 1641173925 for the same wall clock at fixed offset -05:00. -/
theorem c9_timestamp_values :
    DateTime.timestamp ⟨daysFromCivil 1970 1 1, ⟨0, 0⟩, Utc⟩ = 0 ∧
    DateTime.timestamp ⟨daysFromCivil 1970 1 1, ⟨3723, 0⟩, Utc⟩ = 3723 ∧
    DateTime.timestamp ⟨daysFromCivil 2022 1 2, ⟨74325, 0⟩, Utc⟩ = 1641155925 ∧
    DateTime.timestamp ⟨daysFromCivil 2022 1 2, ⟨74325, 0⟩, ⟨-18000⟩⟩ = 1641173925 := by
  decide

/-- Claim C10.  For every signed second count `s`, `from_timestamp s 0 Utc`
succeeds and the resulting value's `timestamp` is `s`. -/
theorem c10_from_timestamp_timestamp_roundtrip (s : Int) :
    (DateTime.fromTimestamp s 0 Utc).map DateTime.timestamp = Except.ok s := by
  by_cases hs : s < 0 <;>
    simp [DateTime.fromTimestamp, DateTime.UNIX_EPOCH, DateTime.addInterval,
      Interval.fromSeconds, Interval.getTimeDuration, Interval.totalMonths,
      Time.addWithDuration, Time.subWithDuration, Time.adjustFromNanos, Time.fromDayNanos,
      Time.totalNanos, Date.addDays, nanosPerDay, DateTime.withNanosecond,
      DateTime.inTimezone, Zone.datetimeAt, DateTime.intoUtc, DateTime.withTimezone,
      DateTime.shift, Zone.offset, DateTime.timestamp, Date.epochDays, Time.totalSeconds,
      Utc, hs, Except.map, addMonths_zero, -Int.natCast_natAbs] <;>
    omega

end Eos
